import Mathlib

/-!
Shallow embedding of the anon0mesh repository.

Programs embedded:
- the escrow program, src/escrow/programs/escrow/src/lib.rs
  (EscrowAccount, PaymentAccount, send_payment, send_payment_encrypted,
  process_payment_callback, init_escrow_stats_callback, pause/resume,
  update_treasury);
- the proxy-transfer program, src/proxy_transfer_program
  (ProxyTransfer, execute_proxy_transfer, magicblock_per_integration);
- the old proxy-transfer program, src/proxy_transfer_program_old
  (undelegate_escrows).

Conventions of the embedding:
- Solana public keys are modelled as Nat.
- Rust u64/u128 values are Nat with explicit checked arithmetic against 2^64
  (the programs use checked_mul / checked_add / checked_sub everywhere the
  claims touch; u128 nonces are never arithmetically combined so they stay
  plain Nat).
- An Anchor instruction handler is a pure function from its pre-state to
  "Except Error post-state": a returned error means the whole Solana
  transaction reverts, so no partial mutation is observable - this is the
  transactional semantics of the runtime, and it is why an error branch
  simply carries no state.
- CPIs to the system program / SPL token program (lamport or token value
  movements) are modelled as balance maps that fail exactly when the payer
  has insufficient funds.
-/

/-- Exclusive upper bound of Rust u64 values, 2^64. -/
def u64Lim : Nat := 18446744073709551616

/-- Rust u64 checked_mul: some product if it fits in u64, else none. -/
def checkedMul (a b : Nat) : Option Nat :=
  if a * b < u64Lim then some (a * b) else none

/-- Rust u64 checked_add. -/
def checkedAdd (a b : Nat) : Option Nat :=
  if a + b < u64Lim then some (a + b) else none

/-- Rust u64 checked_sub (fails on underflow). -/
def checkedSub (a b : Nat) : Option Nat :=
  if b ≤ a then some (a - b) else none

/-- Whether an Except value is a success. -/
def exceptIsOk : Except ε α → Bool
  | .ok _ => true
  | .error _ => false

/-- The opaque encrypted-statistics blob: the source type is [[u8; 32]; 3],
three 32-byte ciphertexts, modelled as three opaque Nat words. The program
only stores and forwards them, never inspects them. -/
abbrev Ciphertexts := Nat × Nat × Nat

/-- EscrowAccount, src/escrow/programs/escrow/src/lib.rs lines 1254-1267.
Field for field as in the source. Note that the account carries NO field
recording a pending computation request or correlation id: its only
Arcium-related fields are the nonce and the encrypted_stats blob. -/
structure EscrowAccount where
  owner : Nat
  total_fund_regulated : Nat
  last_updated : Int
  active : Bool
  treasury : Nat
  bump : Nat
  nonce : Nat
  encrypted_stats : Ciphertexts
deriving DecidableEq, Repr

/-- PaymentAccount, src/escrow/programs/escrow/src/lib.rs lines 1269-1281. -/
structure PaymentAccount where
  sender : Nat
  recipient : Nat
  referal : Nat
  amount : Nat
  timestamp : Int
  referal_reward : Nat
  treasury_reward : Nat
  asset_mint : Nat
deriving DecidableEq, Repr

/-- Errors of the escrow program. The first six are the EscrowError enum
(lib.rs lines 1284-1298); invalidArgument is ProgramError::InvalidArgument,
which the handlers raise via ok_or on every checked-arithmetic failure;
transferFailed stands for a failing transfer CPI (insufficient funds). -/
inductive EscrowErr where
  | escrowPaused
  | alreadyPaused
  | alreadyActive
  | invalidAuthority
  | abortedComputation
  | clusterNotSet
  | invalidArgument
  | transferFailed
deriving DecidableEq, Repr

/-- Lamport balances of the four accounts a SOL payment touches. -/
structure Lamports where
  sender : Nat
  recipient : Nat
  treasury : Nat
  referral : Nat
deriving DecidableEq, Repr

/-- system_program::transfer from the sender to the recipient: fails exactly
when the sender has insufficient lamports. -/
def transferToRecipient (l : Lamports) (amt : Nat) : Option Lamports :=
  if amt ≤ l.sender then
    some { l with sender := l.sender - amt, recipient := l.recipient + amt }
  else none

/-- system_program::transfer from the sender to the treasury. -/
def transferToTreasury (l : Lamports) (amt : Nat) : Option Lamports :=
  if amt ≤ l.sender then
    some { l with sender := l.sender - amt, treasury := l.treasury + amt }
  else none

/-- system_program::transfer from the sender to the referral. -/
def transferToReferral (l : Lamports) (amt : Nat) : Option Lamports :=
  if amt ≤ l.sender then
    some { l with sender := l.sender - amt, referral := l.referral + amt }
  else none

/-- The fee computation shared verbatim by send_payment_encrypted
(lib.rs lines 156-166) and send_payment (lines 371-383), in the source's
order of checked operations:
referral_fee = amount.checked_mul(6)? / 1000,
treasury_fee = amount.checked_mul(14)? / 1000,
fees = referral_fee.checked_add(treasury_fee)?,
net = amount.checked_sub(fees)?.
Returns (referral_fee, treasury_fee, net). -/
def computeFees (amount : Nat) : Option (Nat × Nat × Nat) :=
  match checkedMul amount 6 with
  | none => none
  | some m6 =>
    match checkedMul amount 14 with
    | none => none
    | some m14 =>
      let referral_fee := m6 / 1000
      let treasury_fee := m14 / 1000
      match checkedAdd referral_fee treasury_fee with
      | none => none
      | some fees =>
        match checkedSub amount fees with
        | none => none
        | some net => some (referral_fee, treasury_fee, net)

/-- Successful outcome of a SOL payment: the updated escrow, the updated
lamport balances, and the written PaymentAccount. -/
structure PaymentResult where
  escrow : EscrowAccount
  lamports : Lamports
  payment : PaymentAccount
deriving DecidableEq, Repr

/-- send_payment, src/escrow/programs/escrow/src/lib.rs lines 356-425.
Requires escrow.active (else EscrowPaused); computes the fee split with
checked arithmetic (else InvalidArgument); transfers net to the recipient,
the treasury fee to the treasury and the referral fee to the referral, each
a system-program CPI that fails on insufficient lamports; finally bumps
total_fund_regulated with checked_add (else InvalidArgument). Any failure
reverts the whole transaction, so an error carries no state. -/
def sendPayment (e : EscrowAccount) (l : Lamports)
    (senderKey referal recipient amount : Nat) (now : Int) :
    Except EscrowErr PaymentResult :=
  if e.active = false then .error .escrowPaused
  else
    match computeFees amount with
    | none => .error .invalidArgument
    | some (referral_fee, treasury_fee, net) =>
      match transferToRecipient l net with
      | none => .error .transferFailed
      | some l1 =>
        match transferToTreasury l1 treasury_fee with
        | none => .error .transferFailed
        | some l2 =>
          match transferToReferral l2 referral_fee with
          | none => .error .transferFailed
          | some l3 =>
            match checkedAdd e.total_fund_regulated amount with
            | none => .error .invalidArgument
            | some newTotal =>
              .ok { escrow := { e with total_fund_regulated := newTotal },
                    lamports := l3,
                    payment := { sender := senderKey, recipient := recipient,
                                 referal := referal, amount := amount,
                                 timestamp := now,
                                 referal_reward := referral_fee,
                                 treasury_reward := treasury_fee,
                                 asset_mint := 0 } }

/-- send_payment_usdc / send_payment_zenzec, lib.rs lines 427-512 and
514-599: identical control flow and arithmetic to send_payment, with SPL
token transfers in place of lamport transfers (modelled by the same
four-balance structure) and the asset mint key recorded on the payment. -/
def sendPaymentToken (e : EscrowAccount) (l : Lamports)
    (senderKey referal recipient amount mintKey : Nat) (now : Int) :
    Except EscrowErr PaymentResult :=
  if e.active = false then .error .escrowPaused
  else
    match computeFees amount with
    | none => .error .invalidArgument
    | some (referral_fee, treasury_fee, net) =>
      match transferToRecipient l net with
      | none => .error .transferFailed
      | some l1 =>
        match transferToTreasury l1 treasury_fee with
        | none => .error .transferFailed
        | some l2 =>
          match transferToReferral l2 referral_fee with
          | none => .error .transferFailed
          | some l3 =>
            match checkedAdd e.total_fund_regulated amount with
            | none => .error .invalidArgument
            | some newTotal =>
              .ok { escrow := { e with total_fund_regulated := newTotal },
                    lamports := l3,
                    payment := { sender := senderKey, recipient := recipient,
                                 referal := referal, amount := amount,
                                 timestamp := now,
                                 referal_reward := referral_fee,
                                 treasury_reward := treasury_fee,
                                 asset_mint := mintKey } }

/-- The outbound confidential-computation request that send_payment_encrypted
queues (queue_computation call, lib.rs lines 209-228): the caller-supplied
computation_offset is the correlation id, and the args carry the escrow
nonce snapshot taken at line 143. -/
structure CompRequest where
  offset : Nat
  escrowNonce : Nat
deriving DecidableEq, Repr

/-- send_payment_encrypted, src/escrow/programs/escrow/src/lib.rs lines
131-238. Same guard, fee split, and three transfers as send_payment, then
queues a process_payment computation tagged with the caller-supplied
computation_offset, then bumps total_fund_regulated with checked_add.
Note what is absent in the source: no check that another request is in
flight, no RequestAlreadyPending-style error, and no recording of the
offset on the escrow account. -/
def sendPaymentEncrypted (e : EscrowAccount) (l : Lamports)
    (senderKey referal recipient amount offset : Nat) (now : Int) :
    Except EscrowErr (PaymentResult × CompRequest) :=
  if e.active = false then .error .escrowPaused
  else
    match computeFees amount with
    | none => .error .invalidArgument
    | some (referral_fee, treasury_fee, net) =>
      match transferToRecipient l net with
      | none => .error .transferFailed
      | some l1 =>
        match transferToTreasury l1 treasury_fee with
        | none => .error .transferFailed
        | some l2 =>
          match transferToReferral l2 referral_fee with
          | none => .error .transferFailed
          | some l3 =>
            match checkedAdd e.total_fund_regulated amount with
            | none => .error .invalidArgument
            | some newTotal =>
              .ok ({ escrow := { e with total_fund_regulated := newTotal },
                     lamports := l3,
                     payment := { sender := senderKey, recipient := recipient,
                                  referal := referal, amount := amount,
                                  timestamp := now,
                                  referal_reward := referral_fee,
                                  treasury_reward := treasury_fee,
                                  asset_mint := 0 } },
                   { offset := offset, escrowNonce := e.nonce })

/-- A terminal result delivered by the Arcium network to a statistics
callback: either Success carrying the new ciphertext blob and nonce of the
output struct, or any non-success outcome (the handlers match every
non-Success variant to an AbortedComputation error). -/
inductive StatsOutcome where
  | success (ciphertexts : Ciphertexts) (nonce : Nat)
  | aborted
deriving DecidableEq, Repr

/-- process_payment_callback, src/escrow/programs/escrow/src/lib.rs lines
240-260. On Success it unconditionally overwrites encrypted_stats and nonce
with the delivered values (and emits an event); on any other outcome it
fails with AbortedComputation. The handler receives no correlation id and
reads no pending-request state: it cannot distinguish a fresh result from
a stale or redelivered one. -/
def processPaymentCallback (e : EscrowAccount) (output : StatsOutcome) :
    Except EscrowErr EscrowAccount :=
  match output with
  | .success c n => .ok { e with encrypted_stats := c, nonce := n }
  | .aborted => .error .abortedComputation

/-- init_escrow_stats_callback, lib.rs lines 91-105: same shape as
process_payment_callback. -/
def initEscrowStatsCallback (e : EscrowAccount) (output : StatsOutcome) :
    Except EscrowErr EscrowAccount :=
  match output with
  | .success c n => .ok { e with encrypted_stats := c, nonce := n }
  | .aborted => .error .abortedComputation

/-- pause_escrow, lib.rs lines 107-113. -/
def pauseEscrow (e : EscrowAccount) (now : Int) : Except EscrowErr EscrowAccount :=
  if e.active = true then .ok { e with active := false, last_updated := now }
  else .error .alreadyPaused

/-- resume_escrow, lib.rs lines 115-121. -/
def resumeEscrow (e : EscrowAccount) (now : Int) : Except EscrowErr EscrowAccount :=
  if e.active = false then .ok { e with active := true, last_updated := now }
  else .error .alreadyActive

/-- update_treasury, lib.rs lines 123-128. -/
def updateTreasury (e : EscrowAccount) (newTreasury : Nat) (now : Int) :
    Except EscrowErr EscrowAccount :=
  .ok { e with treasury := newTreasury, last_updated := now }

/-- Protocol-level state of one escrow entry, used to express the spec's
derived notion of a pending request. The escrow and lamports evolve exactly
by the source handlers; pending is ghost bookkeeping maintained alongside:
the list of computation offsets (correlation ids) that have been queued by
send_payment_encrypted and for which no terminal callback transaction has
yet succeeded. The source program itself stores nothing of this kind - the
EscrowAccount has no pending field - which is precisely what the pending
ghost makes visible. -/
structure ProtoState where
  escrow : EscrowAccount
  lamports : Lamports
  pending : List Nat
deriving DecidableEq, Repr

/-- One send_payment_encrypted call at the protocol level: on success the
queued computation_offset is appended to the ghost pending list. -/
def protoPayEnc (s : ProtoState) (senderKey referal recipient amount offset : Nat)
    (now : Int) : Except EscrowErr ProtoState :=
  match sendPaymentEncrypted s.escrow s.lamports senderKey referal recipient
      amount offset now with
  | .error err => .error err
  | .ok (res, req) =>
    .ok { escrow := res.escrow, lamports := res.lamports,
          pending := s.pending ++ [req.offset] }

/-- One delivery of a terminal result for correlation id offset at the
protocol level: the escrow is updated exactly by process_payment_callback
(which ignores the offset entirely); if the callback transaction succeeds
the delivered offset is consumed from the ghost pending list, and if it
fails (reverts) nothing at all - ghost marker included - changes. -/
def protoDeliver (s : ProtoState) (offset : Nat) (output : StatsOutcome) :
    Except EscrowErr ProtoState :=
  match processPaymentCallback s.escrow output with
  | .error err => .error err
  | .ok e' =>
    .ok { escrow := e', lamports := s.lamports,
          pending := s.pending.erase offset }

/-- The state transitions of one escrow entry under the program's
instruction handlers (check_volume_threshold and reveal_payment_count do
not take the escrow account as writable and mutate nothing on it, so they
induce no transition). -/
inductive EscrowStep : EscrowAccount → EscrowAccount → Prop where
  | pause (e : EscrowAccount) (now : Int) (e' : EscrowAccount) :
      pauseEscrow e now = .ok e' → EscrowStep e e'
  | resume (e : EscrowAccount) (now : Int) (e' : EscrowAccount) :
      resumeEscrow e now = .ok e' → EscrowStep e e'
  | setTreasury (e : EscrowAccount) (t : Nat) (now : Int) (e' : EscrowAccount) :
      updateTreasury e t now = .ok e' → EscrowStep e e'
  | pay (e : EscrowAccount) (l : Lamports) (sk rf rc a : Nat) (now : Int)
      (r : PaymentResult) :
      sendPayment e l sk rf rc a now = .ok r → EscrowStep e r.escrow
  | payToken (e : EscrowAccount) (l : Lamports) (sk rf rc a mk : Nat) (now : Int)
      (r : PaymentResult) :
      sendPaymentToken e l sk rf rc a mk now = .ok r → EscrowStep e r.escrow
  | payEnc (e : EscrowAccount) (l : Lamports) (sk rf rc a off : Nat) (now : Int)
      (r : PaymentResult) (q : CompRequest) :
      sendPaymentEncrypted e l sk rf rc a off now = .ok (r, q) →
      EscrowStep e r.escrow
  | processCb (e : EscrowAccount) (o : StatsOutcome) (e' : EscrowAccount) :
      processPaymentCallback e o = .ok e' → EscrowStep e e'
  | initStatsCb (e : EscrowAccount) (o : StatsOutcome) (e' : EscrowAccount) :
      initEscrowStatsCallback e o = .ok e' → EscrowStep e e'

/-- PerStatus, src/proxy_transfer_program/programs/proxy_transfer/src/state/
proxy_transfer.rs lines 18-25 (identical in the old program's state/mod.rs
lines 17-24). -/
inductive PerStatus where
  | none
  | delegated
  | committed
  | undelegated
  | integrated
deriving DecidableEq, Repr

/-- ProxyTransfer, src/proxy_transfer_program/programs/proxy_transfer/src/
state/proxy_transfer.rs lines 3-16 (the transfer record of the current
proxy-transfer program). -/
structure ProxyTransfer where
  sender : Nat
  recipient : Nat
  amount : Nat
  token_mint : Option Nat
  nonce : Nat
  referral : Option Nat
  tax_collected : Nat
  is_completed : Bool
  bump : Nat
  per_status : PerStatus
  treasury : Option Nat
deriving DecidableEq, Repr

/-- ProxyTransfer of the old program, src/proxy_transfer_program_old/
programs/proxy_transfer/src/state/mod.rs lines 3-15: same fields minus
treasury. -/
structure OldProxyTransfer where
  sender : Nat
  recipient : Nat
  amount : Nat
  token_mint : Option Nat
  nonce : Nat
  referral : Option Nat
  tax_collected : Nat
  is_completed : Bool
  bump : Nat
  per_status : PerStatus
deriving DecidableEq, Repr

/-- ProxyTransferError (union of the two programs' enums; the handlers the
claims cite use only the constructors below). overflowAbort models a Rust
unwrap() panicking on a checked-arithmetic None, which aborts the
transaction; tokenTransferFailed models a failing SPL transfer_checked CPI.
Note: the old program's enum does not even declare PerNotCommitted, though
its undelegate_escrows handler names it. -/
inductive PtErr where
  | invalidNonce
  | transferAlreadyCompleted
  | invalidProxySigner
  | invalidSender
  | transferNotExecuted
  | perNotCommitted
  | overflowAbort
  | tokenTransferFailed
deriving DecidableEq, Repr

/-- Token balances of the accounts execute_proxy_transfer moves value
between: the sender's token account pays the recipient's token account,
the tax payer account and the referral reward account. -/
structure TokenBalances where
  sender : Nat
  recipient : Nat
  taxPayer : Nat
  referralReward : Nat
deriving DecidableEq, Repr

/-- transfer_checked from the sender's token account to the recipient's:
fails exactly on insufficient balance. -/
def tokTransferRecipient (b : TokenBalances) (amt : Nat) : Option TokenBalances :=
  if amt ≤ b.sender then
    some { b with sender := b.sender - amt, recipient := b.recipient + amt }
  else none

/-- transfer_checked from the sender's token account to the tax payer. -/
def tokTransferTax (b : TokenBalances) (amt : Nat) : Option TokenBalances :=
  if amt ≤ b.sender then
    some { b with sender := b.sender - amt, taxPayer := b.taxPayer + amt }
  else none

/-- transfer_checked from the sender's token account to the referral reward
account. -/
def tokTransferReferral (b : TokenBalances) (amt : Nat) : Option TokenBalances :=
  if amt ≤ b.sender then
    some { b with sender := b.sender - amt, referralReward := b.referralReward + amt }
  else none

/-- execute_proxy_transfer handler, src/proxy_transfer_program/programs/
proxy_transfer/src/instructions/execute_proxy_transfer.rs lines 94-175.
Guards: not already completed (TransferAlreadyCompleted), proxy_signer key
equals sender key (InvalidProxySigner), stored nonce equals the argument
(InvalidNonce). Then tax = amount*1000/10000 and referral reward =
amount*500/10000, both via checked_mul(...).unwrap() / checked_div(10000)
.unwrap() (an unwrap on an overflowed mul panics and aborts the
transaction: overflowAbort), the remainder goes to the recipient; each
transfer happens only if its amount is positive (the referral one also only
if a referral is recorded). Finally, in one mutation block, tax_collected,
is_completed := true and per_status := Delegated are written. -/
def executeProxyTransfer (pt : ProxyTransfer) (b : TokenBalances)
    (proxySignerKey senderKey nonceArg : Nat) :
    Except PtErr (ProxyTransfer × TokenBalances) :=
  if pt.is_completed = true then .error .transferAlreadyCompleted
  else if proxySignerKey ≠ senderKey then .error .invalidProxySigner
  else if pt.nonce ≠ nonceArg then .error .invalidNonce
  else
    match checkedMul pt.amount 1000 with
    | none => .error .overflowAbort
    | some m1 =>
      let tax_amount := m1 / 10000
      match checkedMul pt.amount 500 with
      | none => .error .overflowAbort
      | some m2 =>
        let referral_reward_amount := m2 / 10000
        match checkedSub pt.amount tax_amount with
        | none => .error .overflowAbort
        | some rem =>
          match checkedSub rem referral_reward_amount with
          | none => .error .overflowAbort
          | some amount_to_transfer =>
            match (if 0 < amount_to_transfer then
                     tokTransferRecipient b amount_to_transfer
                   else some b) with
            | none => .error .tokenTransferFailed
            | some b1 =>
              match (if 0 < tax_amount then tokTransferTax b1 tax_amount
                     else some b1) with
              | none => .error .tokenTransferFailed
              | some b2 =>
                match (if 0 < referral_reward_amount ∧ pt.referral.isSome then
                         tokTransferReferral b2 referral_reward_amount
                       else some b2) with
                | none => .error .tokenTransferFailed
                | some b3 =>
                  .ok ({ pt with tax_collected := tax_amount,
                                 is_completed := true,
                                 per_status := .delegated }, b3)

/-- magicblock_per_integration handler, src/proxy_transfer_program/programs/
proxy_transfer/src/instructions/magicblock_per_integration.rs lines 48-68,
embedded check for check: it requires is_completed to be false at line 53
(TransferAlreadyCompleted) and then requires is_completed to be true at
line 62 (TransferNotExecuted), so the Integrated write at line 65 is
unreachable. It never consults per_status. -/
def magicblockPerIntegration (pt : ProxyTransfer) (senderKey nonceArg : Nat) :
    Except PtErr ProxyTransfer :=
  if pt.is_completed = true then .error .transferAlreadyCompleted
  else if senderKey ≠ pt.sender then .error .invalidSender
  else if pt.nonce ≠ nonceArg then .error .invalidNonce
  else if pt.is_completed = false then .error .transferNotExecuted
  else .ok { pt with per_status := .integrated }

/-- undelegate_escrows handler of the old program, src/
proxy_transfer_program_old/programs/proxy_transfer/src/instructions/
undelegate_escrows.rs lines 81-107, embedded check for check: it requires
is_completed to be false at line 86 and is_completed to be true at line 95,
so the PerNotCommitted check at line 98 and the Undelegated write at line
104 are unreachable (the cpi_undelegate_escrows call at line 101 is a
logging placeholder that always succeeds). -/
def undelegateEscrows (pt : OldProxyTransfer) (senderKey nonceArg : Nat) :
    Except PtErr OldProxyTransfer :=
  if pt.is_completed = true then .error .transferAlreadyCompleted
  else if senderKey ≠ pt.sender then .error .invalidSender
  else if pt.nonce ≠ nonceArg then .error .invalidNonce
  else if pt.is_completed = false then .error .transferNotExecuted
  else if pt.per_status ≠ PerStatus.committed then .error .perNotCommitted
  else .ok { pt with per_status := .undelegated }

/-- Modelled from the spec: the initialize_proxy_transfer handler body is
missing from src (the file of that name holds the program's dispatch
module, which calls instructions::initialize_proxy_transfer::handler).
Spec sections 3 and 4.6: a Transfer Record is created with its core fields
set from the arguments, completed = false, and the delegation state machine
starting at None; nothing has been collected yet. -/
def initProxyTransfer (sender recipient amount : Nat) (token_mint : Option Nat)
    (nonce : Nat) (referral : Option Nat) (bump : Nat) : ProxyTransfer :=
  { sender := sender, recipient := recipient, amount := amount,
    token_mint := token_mint, nonce := nonce, referral := referral,
    tax_collected := 0, is_completed := false, bump := bump,
    per_status := .none, treasury := Option.none }

/-- Modelled from the spec: the delegate_escrows instruction is declared in
the program's instruction module list but its file is missing from src.
Spec section 4.6: delegate requires completed = true and current state
None, and sets Delegated; it fails otherwise without mutating state. -/
def delegateEscrows (pt : ProxyTransfer) : Option ProxyTransfer :=
  if pt.is_completed = true ∧ pt.per_status = PerStatus.none then
    some { pt with per_status := .delegated }
  else Option.none

/-- Modelled from the spec: the commit_per_changes instruction is declared
in the program's instruction module list but its file is missing from src.
Spec section 4.6: commit requires state Delegated and sets Committed. -/
def commitPerChanges (pt : ProxyTransfer) : Option ProxyTransfer :=
  if pt.per_status = PerStatus.delegated then
    some { pt with per_status := .committed }
  else Option.none

/-- Modelled from the spec: the current program's undelegate_escrows
instruction is declared in its instruction module list but its file is
missing from src. Spec section 4.6: undelegate requires state Committed and
sets Undelegated. -/
def undelegateEscrowsNew (pt : ProxyTransfer) : Option ProxyTransfer :=
  if pt.per_status = PerStatus.committed then
    some { pt with per_status := .undelegated }
  else Option.none

/-- The mutations a ProxyTransfer record of the current program can undergo
after creation: the two handlers present in src that write the record
(execute_proxy_transfer, magicblock_per_integration) plus the three
delegation transitions whose instruction files are missing from src,
modelled from the spec. (setup_tax_payer and collect_referral_reward write
only TaxPayer / ReferralReward accounts; the arcium_integration file does
not compile against this state - it writes a status field ProxyTransfer
does not have - and so is not part of the program.) -/
inductive PtStep : ProxyTransfer → ProxyTransfer → Prop where
  | exec (pt : ProxyTransfer) (b : TokenBalances) (ps sk n : Nat)
      (pt' : ProxyTransfer) (b' : TokenBalances) :
      executeProxyTransfer pt b ps sk n = .ok (pt', b') → PtStep pt pt'
  | integrate (pt : ProxyTransfer) (sk n : Nat) (pt' : ProxyTransfer) :
      magicblockPerIntegration pt sk n = .ok pt' → PtStep pt pt'
  | delegate (pt pt' : ProxyTransfer) :
      delegateEscrows pt = some pt' → PtStep pt pt'
  | commit (pt pt' : ProxyTransfer) :
      commitPerChanges pt = some pt' → PtStep pt pt'
  | undelegate (pt pt' : ProxyTransfer) :
      undelegateEscrowsNew pt = some pt' → PtStep pt pt'

/-- A demonstration escrow entry: active, zero running total, nonce 100. -/
def demoEscrow : EscrowAccount :=
  { owner := 1, total_fund_regulated := 0, last_updated := 0, active := true,
    treasury := 2, bump := 0, nonce := 100, encrypted_stats := (0, 0, 0) }

/-- The demonstration entry, paused. -/
def demoPausedEscrow : EscrowAccount := { demoEscrow with active := false }

/-- The demonstration entry with its running total one below the u64 limit. -/
def demoFullEscrow : EscrowAccount :=
  { demoEscrow with total_fund_regulated := 18446744073709551615 }

/-- Demonstration lamport balances: the sender holds one SOL. -/
def demoLamports : Lamports :=
  { sender := 1000000000, recipient := 0, treasury := 0, referral := 0 }

/-- Demonstration protocol state with no request in flight. -/
def demoProto : ProtoState :=
  { escrow := demoEscrow, lamports := demoLamports, pending := [] }

/-- The protocol state after one send_payment_encrypted of 1000 lamports
with computation_offset 1: request 1 is in flight. -/
def traceAfterPay : Except EscrowErr ProtoState :=
  protoPayEnc demoProto 3 4 5 1000 1 0

/-- ... then the Success result of request 1 is delivered and applied. -/
def traceAfterApply : Except EscrowErr ProtoState :=
  traceAfterPay.bind (fun s => protoDeliver s 1 (.success (7, 8, 9) 200))

/-- ... then a Success tagged with the same correlation id 1 - which is no
longer pending - is redelivered, now carrying different payload values. -/
def traceAfterStale : Except EscrowErr ProtoState :=
  traceAfterApply.bind (fun s => protoDeliver s 1 (.success (10, 11, 12) 300))

/-- The state after the first payment, followed by a second
send_payment_encrypted (offset 2) with no intervening callback. -/
def traceSecondRequest : Except EscrowErr ProtoState :=
  traceAfterPay.bind (fun s => protoPayEnc s 3 4 5 1000 2 0)

/-- The state after the first payment, followed by delivery of the Aborted
terminal result for the in-flight request 1. -/
def traceAbortedDelivery : Except EscrowErr ProtoState :=
  traceAfterPay.bind (fun s => protoDeliver s 1 .aborted)

/-- The expected successful result of sendPayment demoEscrow demoLamports
3 4 5 1000 0: fees 6 and 14, net 980, running total 1000. -/
def demoPayResult : PaymentResult :=
  { escrow := { demoEscrow with total_fund_regulated := 1000 },
    lamports := { sender := 999999000, recipient := 980, treasury := 14,
                  referral := 6 },
    payment := { sender := 3, recipient := 5, referal := 4, amount := 1000,
                 timestamp := 0, referal_reward := 6, treasury_reward := 14,
                 asset_mint := 0 } }

/-- A completed transfer record of the current program that has reached the
Committed delegation state, with sender 5 and nonce 9. -/
def demoCommittedPt : ProxyTransfer :=
  { sender := 5, recipient := 6, amount := 1000, token_mint := Option.none,
    nonce := 9, referral := some 7, tax_collected := 100, is_completed := true,
    bump := 0, per_status := .committed, treasury := Option.none }

/-- A freshly created, not yet executed transfer record (sender 5, nonce 9,
amount 1000, with a referral). -/
def demoFreshPt : ProxyTransfer :=
  { demoCommittedPt with is_completed := false, per_status := .none,
                         tax_collected := 0 }

/-- demoFreshPt after a successful execute_proxy_transfer: tax 100 (10
percent) collected, completed, Delegated. -/
def demoExecutedPt : ProxyTransfer :=
  { demoFreshPt with tax_collected := 100, is_completed := true,
                     per_status := .delegated }

/-- Demonstration token balances for execute_proxy_transfer. -/
def demoTokens : TokenBalances :=
  { sender := 1000000, recipient := 0, taxPayer := 0, referralReward := 0 }

/-- demoTokens after the three transfers of a successful execution of
demoFreshPt: 850 to the recipient, 100 tax, 50 referral reward. -/
def demoExecutedTokens : TokenBalances :=
  { sender := 999000, recipient := 850, taxPayer := 100, referralReward := 50 }

/-- A completed transfer record of the old program in the Committed state,
sender 5 and nonce 9: by the spec, undelegate_escrows must succeed on it. -/
def demoOldCommittedPt : OldProxyTransfer :=
  { sender := 5, recipient := 6, amount := 1000, token_mint := Option.none,
    nonce := 9, referral := some 7, tax_collected := 100, is_completed := true,
    bump := 0, per_status := .committed }

/-- A not-yet-executed record of the old program in state None (not
Committed), sender 5 and nonce 9. -/
def demoOldFreshPt : OldProxyTransfer :=
  { demoOldCommittedPt with is_completed := false, per_status := .none,
                            tax_collected := 0 }

theorem computeFees_eq (a : Nat) :
    computeFees a =
      if a * 14 < u64Lim then
        some (a * 6 / 1000, a * 14 / 1000, a - (a * 6 / 1000 + a * 14 / 1000))
      else none := by
  have hle : a * 6 / 1000 + a * 14 / 1000 ≤ a := by omega
  unfold computeFees checkedMul checkedAdd checkedSub
  by_cases h14 : a * 14 < u64Lim
  · have h6 : a * 6 < u64Lim := by omega
    have hf : a * 6 / 1000 + a * 14 / 1000 < u64Lim := by omega
    simp only [if_pos h14, if_pos h6, if_pos hf, if_pos hle]
  · have h6 : ¬ a * 6 < u64Lim ∨ a * 6 < u64Lim := by tauto
    rcases h6 with h6 | h6
    · simp only [if_neg h14, if_neg h6]
    · simp only [if_neg h14, if_pos h6]

theorem computeFees_sum (a r t n : Nat) (h : computeFees a = some (r, t, n)) :
    n + t + r = a ∧ r = a * 6 / 1000 ∧ t = a * 14 / 1000 := by
  rw [computeFees_eq] at h
  by_cases h14 : a * 14 < u64Lim
  · rw [if_pos h14] at h
    have h1 : a * 6 / 1000 + a * 14 / 1000 ≤ a := by omega
    injection h with h
    obtain ⟨hr, ht, hn⟩ : r = a * 6 / 1000 ∧ t = a * 14 / 1000 ∧
        n = a - (a * 6 / 1000 + a * 14 / 1000) := by
      constructor
      · exact congrArg Prod.fst h.symm
      constructor
      · exact congrArg (fun p => p.2.1) h.symm
      · exact congrArg (fun p => p.2.2) h.symm
    subst hr; subst ht; subst hn
    omega
  · rw [if_neg h14] at h
    exact absurd h (by simp)

theorem sendPaymentEncrypted_ok_eq (e : EscrowAccount) (l : Lamports)
    (sk rf rc a off : Nat) (now : Int)
    (hAct : e.active = true) (hMul : a * 14 < u64Lim)
    (hBal : a ≤ l.sender) (hTot : e.total_fund_regulated + a < u64Lim) :
    sendPaymentEncrypted e l sk rf rc a off now =
      .ok ({ escrow := { e with total_fund_regulated := e.total_fund_regulated + a },
             lamports :=
               { sender := l.sender - (a - (a * 6 / 1000 + a * 14 / 1000))
                             - a * 14 / 1000 - a * 6 / 1000,
                 recipient := l.recipient + (a - (a * 6 / 1000 + a * 14 / 1000)),
                 treasury := l.treasury + a * 14 / 1000,
                 referral := l.referral + a * 6 / 1000 },
             payment := { sender := sk, recipient := rc, referal := rf,
                          amount := a, timestamp := now,
                          referal_reward := a * 6 / 1000,
                          treasury_reward := a * 14 / 1000,
                          asset_mint := 0 } },
           { offset := off, escrowNonce := e.nonce }) := by
  have hnet : a - (a * 6 / 1000 + a * 14 / 1000) ≤ l.sender := by omega
  have htre : a * 14 / 1000 ≤ l.sender - (a - (a * 6 / 1000 + a * 14 / 1000)) := by
    omega
  have href : a * 6 / 1000 ≤
      l.sender - (a - (a * 6 / 1000 + a * 14 / 1000)) - a * 14 / 1000 := by
    omega
  simp [sendPaymentEncrypted, transferToRecipient, transferToTreasury,
    transferToReferral, checkedAdd, computeFees_eq, hAct, hMul, hnet, htre,
    href, hTot]

theorem sendPaymentToken_ok_shape (e : EscrowAccount) (l : Lamports)
    (sk rf rc a mk : Nat) (now : Int) (r : PaymentResult)
    (h : sendPaymentToken e l sk rf rc a mk now = .ok r) :
    r.escrow.total_fund_regulated = e.total_fund_regulated + a ∧
    r.lamports.sender + a = l.sender ∧
    r.escrow.active = e.active ∧ r.escrow.nonce = e.nonce ∧
    e.total_fund_regulated + a < u64Lim := by
  unfold sendPaymentToken at h
  split at h
  · exact Except.noConfusion h
  next hAct =>
  split at h
  · exact Except.noConfusion h
  next rfee tfee net heqFees =>
  split at h
  · exact Except.noConfusion h
  next l1 heq1 =>
  split at h
  · exact Except.noConfusion h
  next l2 heq2 =>
  split at h
  · exact Except.noConfusion h
  next l3 heq3 =>
  split at h
  · exact Except.noConfusion h
  next newTot heqAdd =>
  injection h with h
  subst h
  obtain ⟨hsum, hrfee, htfee⟩ := computeFees_sum a rfee tfee net heqFees
  unfold transferToRecipient at heq1
  split at heq1
  next hc1 =>
    injection heq1 with heq1
    subst heq1
    unfold transferToTreasury at heq2
    split at heq2
    next hc2 =>
      injection heq2 with heq2
      subst heq2
      unfold transferToReferral at heq3
      split at heq3
      next hc3 =>
        injection heq3 with heq3
        subst heq3
        unfold checkedAdd at heqAdd
        split at heqAdd
        next hc4 =>
          injection heqAdd with heqAdd
          subst heqAdd
          dsimp only at hc2 hc3 ⊢
          refine ⟨rfl, by omega, rfl, rfl, hc4⟩
        · exact Option.noConfusion heqAdd
      · exact Option.noConfusion heq3
    · exact Option.noConfusion heq2
  · exact Option.noConfusion heq1

theorem sendPayment_as_token (e : EscrowAccount) (l : Lamports)
    (sk rf rc a : Nat) (now : Int) :
    sendPayment e l sk rf rc a now = sendPaymentToken e l sk rf rc a 0 now := rfl

theorem sendPaymentEncrypted_ok_shape (e : EscrowAccount) (l : Lamports)
    (sk rf rc a off : Nat) (now : Int) (r : PaymentResult) (q : CompRequest)
    (h : sendPaymentEncrypted e l sk rf rc a off now = .ok (r, q)) :
    r.escrow.total_fund_regulated = e.total_fund_regulated + a ∧
    r.lamports.sender + a = l.sender ∧
    r.escrow.active = e.active ∧ r.escrow.nonce = e.nonce ∧
    q = { offset := off, escrowNonce := e.nonce } := by
  unfold sendPaymentEncrypted at h
  split at h
  · exact Except.noConfusion h
  next hAct =>
  split at h
  · exact Except.noConfusion h
  next rfee tfee net heqFees =>
  split at h
  · exact Except.noConfusion h
  next l1 heq1 =>
  split at h
  · exact Except.noConfusion h
  next l2 heq2 =>
  split at h
  · exact Except.noConfusion h
  next l3 heq3 =>
  split at h
  · exact Except.noConfusion h
  next newTot heqAdd =>
  injection h with h
  injection h with h hq
  subst h
  subst hq
  obtain ⟨hsum, hrfee, htfee⟩ := computeFees_sum a rfee tfee net heqFees
  unfold transferToRecipient at heq1
  split at heq1
  next hc1 =>
    injection heq1 with heq1
    subst heq1
    unfold transferToTreasury at heq2
    split at heq2
    next hc2 =>
      injection heq2 with heq2
      subst heq2
      unfold transferToReferral at heq3
      split at heq3
      next hc3 =>
        injection heq3 with heq3
        subst heq3
        unfold checkedAdd at heqAdd
        split at heqAdd
        next hc4 =>
          injection heqAdd with heqAdd
          subst heqAdd
          dsimp only at hc2 hc3 ⊢
          refine ⟨rfl, by omega, rfl, rfl, rfl⟩
        · exact Option.noConfusion heqAdd
      · exact Option.noConfusion heq3
    · exact Option.noConfusion heq2
  · exact Option.noConfusion heq1

theorem escrowStep_total_mono (e e' : EscrowAccount) (h : EscrowStep e e') :
    e.total_fund_regulated ≤ e'.total_fund_regulated := by
  cases h with
  | pause now e' hh =>
    unfold pauseEscrow at hh
    split at hh
    · injection hh with hh
      subst hh
      exact Nat.le_refl _
    · exact Except.noConfusion hh
  | resume now e' hh =>
    unfold resumeEscrow at hh
    split at hh
    · injection hh with hh
      subst hh
      exact Nat.le_refl _
    · exact Except.noConfusion hh
  | setTreasury t now e' hh =>
    unfold updateTreasury at hh
    injection hh with hh
    subst hh
    exact Nat.le_refl _
  | pay l sk rf rc a now r hh =>
    rw [sendPayment_as_token] at hh
    have hs := sendPaymentToken_ok_shape e l sk rf rc a 0 now r hh
    omega
  | payToken l sk rf rc a mk now r hh =>
    have hs := sendPaymentToken_ok_shape e l sk rf rc a mk now r hh
    omega
  | payEnc l sk rf rc a off now r q hh =>
    have hs := sendPaymentEncrypted_ok_shape e l sk rf rc a off now r q hh
    omega
  | processCb o e' hh =>
    cases o with
    | success c n =>
      injection hh with hh
      subst hh
      exact Nat.le_refl _
    | aborted => exact Except.noConfusion hh
  | initStatsCb o e' hh =>
    cases o with
    | success c n =>
      injection hh with hh
      subst hh
      exact Nat.le_refl _
    | aborted => exact Except.noConfusion hh

theorem executeProxyTransfer_completed_error (pt : ProxyTransfer)
    (b : TokenBalances) (ps sk n : Nat) (h : pt.is_completed = true) :
    executeProxyTransfer pt b ps sk n = .error .transferAlreadyCompleted := by
  unfold executeProxyTransfer
  rw [if_pos h]

theorem executeProxyTransfer_ok_shape (pt : ProxyTransfer) (b : TokenBalances)
    (ps sk n : Nat) (pt' : ProxyTransfer) (b' : TokenBalances)
    (h : executeProxyTransfer pt b ps sk n = .ok (pt', b')) :
    pt.is_completed = false ∧
    pt' = { pt with tax_collected := pt.amount * 1000 / 10000,
                    is_completed := true, per_status := .delegated } := by
  unfold executeProxyTransfer at h
  split at h
  · exact Except.noConfusion h
  next hC =>
  split at h
  · exact Except.noConfusion h
  next hPs =>
  split at h
  · exact Except.noConfusion h
  next hN =>
  split at h
  · exact Except.noConfusion h
  next m1 hm1 =>
  split at h
  · exact Except.noConfusion h
  next m2 hm2 =>
  dsimp only at h
  split at h
  · exact Except.noConfusion h
  next rem hrem =>
  split at h
  · exact Except.noConfusion h
  next amt hamt =>
  split at h
  · exact Except.noConfusion h
  next b1 hb1 =>
  split at h
  · exact Except.noConfusion h
  next b2 hb2 =>
  split at h
  · exact Except.noConfusion h
  next b3 hb3 =>
  injection h with h
  injection h with h hb
  unfold checkedMul at hm1
  split at hm1
  next hlt =>
    injection hm1 with hm1
    subst hm1
    refine ⟨by simpa using hC, h.symm⟩
  · exact Option.noConfusion hm1

theorem magicblockPerIntegration_isOk_false (pt : ProxyTransfer) (sk n : Nat) :
    exceptIsOk (magicblockPerIntegration pt sk n) = false := by
  unfold magicblockPerIntegration
  cases hC : pt.is_completed with
  | true => rfl
  | false =>
    split
    · rfl
    split
    · rfl
    split
    · rfl
    rfl

theorem undelegateEscrows_isOk_false (pt : OldProxyTransfer) (sk n : Nat) :
    exceptIsOk (undelegateEscrows pt sk n) = false := by
  unfold undelegateEscrows
  cases hC : pt.is_completed with
  | true => rfl
  | false =>
    split
    · rfl
    split
    · rfl
    split
    · rfl
    rfl

/-- C4: for every gross amount on which the fee computation of
send_payment / send_payment_encrypted succeeds, the net amount, the
treasury fee (the 14 per-thousand share) and the referral fee (the 6
per-thousand share) sum exactly to the gross amount, with the truncation
remainder of the two floor divisions accruing to the net amount; in
particular gross 1000 yields treasury fee 14, referral fee 6, net 980. -/
theorem fee_split_sums_to_gross (a r t n : Nat)
    (h : computeFees a = some (r, t, n)) :
    n + t + r = a ∧ t = a * 14 / 1000 ∧ r = a * 6 / 1000 ∧
    n = a - (a * 6 / 1000 + a * 14 / 1000) := by
  obtain ⟨hs, hr, ht⟩ := computeFees_sum a r t n h
  exact ⟨hs, ht, hr, by omega⟩

theorem fee_split_sums_to_gross_witness :
    computeFees 1000 = some (6, 14, 980) ∧
    (980 + 14 + 6 = 1000 ∧ 14 = 1000 * 14 / 1000 ∧ 6 = 1000 * 6 / 1000 ∧
     980 = 1000 - (1000 * 6 / 1000 + 1000 * 14 / 1000)) :=
  ⟨by decide, fee_split_sums_to_gross 1000 6 14 980 (by decide)⟩

/-- C9: the fee computation fails exactly when one of its two fee
multiplications overflows u64 before the division by 1000; when it fails
(with ProgramError::InvalidArgument - the spec's label for this failure is
ArithmeticOverflow) the payment handler returns that error, so the whole
transaction reverts and no transfer or state change occurs; and for every
gross amount at or below the safe bound u64::MAX / 10000 the computation
succeeds. -/
theorem fee_overflow_characterization (a : Nat) (e : EscrowAccount)
    (l : Lamports) (sk rf rc : Nat) (now : Int) :
    (computeFees a = none ↔ (u64Lim ≤ a * 6 ∨ u64Lim ≤ a * 14))
    ∧ (e.active = true → computeFees a = none →
        sendPayment e l sk rf rc a now = .error .invalidArgument)
    ∧ (a ≤ (u64Lim - 1) / 10000 → computeFees a ≠ none) := by
  refine ⟨?_, ?_, ?_⟩
  · rw [computeFees_eq]
    by_cases h14 : a * 14 < u64Lim
    · rw [if_pos h14]
      constructor
      · intro hc
        exact absurd hc (by simp)
      · omega
    · rw [if_neg h14]
      constructor
      · intro _
        omega
      · intro _
        rfl
  · intro hAct hNone
    unfold sendPayment
    rw [hNone]
    simp [hAct]
  · intro hB
    rw [computeFees_eq]
    have hU : u64Lim = 18446744073709551616 := rfl
    have h14 : a * 14 < u64Lim := by omega
    rw [if_pos h14]
    simp

theorem fee_overflow_characterization_witness :
    computeFees u64Lim = none ∧
    sendPayment demoEscrow demoLamports 3 4 5 u64Lim 0 = .error .invalidArgument ∧
    computeFees 1000 ≠ none := by
  have h := fee_overflow_characterization u64Lim demoEscrow demoLamports 3 4 5 0
  have h1000 := fee_overflow_characterization 1000 demoEscrow demoLamports 3 4 5 0
  have hn : computeFees u64Lim = none := h.1.mpr (by right; decide)
  exact ⟨hn, h.2.1 (by decide) hn, h1000.2.2 (by decide)⟩

/-- C1 (amended): process_payment_callback receives no correlation id and
consults no pending-request state (EscrowAccount stores none): every
Success delivery is applied unconditionally, overwriting encrypted_stats
and nonce with the delivered values - a redelivered, already-applied
result is re-applied rather than rejected - while every non-Success
delivery fails with AbortedComputation, whose transaction revert leaves
the entry unchanged. -/
theorem process_payment_callback_unconditional (e : EscrowAccount)
    (c : Ciphertexts) (n : Nat) :
    processPaymentCallback e (.success c n)
      = .ok { e with encrypted_stats := c, nonce := n } ∧
    processPaymentCallback e .aborted = .error .abortedComputation :=
  ⟨rfl, rfl⟩

/-- C1 counterexample: issue request 1 and apply its Success result, so no
request is pending any more; a redelivery of a Success tagged with the
stale correlation id 1 (offset 1, not equal to any pending request id)
then mutates both encrypted_stats (to the redelivered payload) and nonce
(200 to 300), instead of being rejected without mutation as the claim
states. -/
theorem stale_callback_mutates_state :
    traceAfterApply.map
        (fun s => (s.pending, s.escrow.nonce, s.escrow.encrypted_stats))
      = .ok ([], 200, (7, 8, 9)) ∧
    traceAfterStale.map
        (fun s => (s.pending, s.escrow.nonce, s.escrow.encrypted_stats))
      = .ok ([], 300, (10, 11, 12)) :=
  ⟨rfl, rfl⟩

/-- C2 (amended): send_payment_encrypted allocates no correlation id (it
forwards the caller-supplied computation_offset), records nothing as
pending, and performs no pending-request check - the program defines no
RequestAlreadyPending error. A second request issued with no intervening
callback therefore succeeds whenever its own preconditions hold: entry
active, fee multiplication within u64, sufficient lamports, and no
running-total overflow. -/
theorem send_twice_without_callback_succeeds (e : EscrowAccount)
    (l : Lamports) (sk rf rc a1 a2 off1 off2 : Nat) (t1 t2 : Int)
    (hAct : e.active = true) (h1 : a1 * 14 < u64Lim) (h2 : a2 * 14 < u64Lim)
    (hBal : a1 + a2 ≤ l.sender)
    (hTot : e.total_fund_regulated + a1 + a2 < u64Lim) :
    ∃ r1 q1 r2 q2,
      sendPaymentEncrypted e l sk rf rc a1 off1 t1 = .ok (r1, q1) ∧
      sendPaymentEncrypted r1.escrow r1.lamports sk rf rc a2 off2 t2
        = .ok (r2, q2) := by
  have hB1 : a1 ≤ l.sender := by omega
  have hT1 : e.total_fund_regulated + a1 < u64Lim := by omega
  have e1 := sendPaymentEncrypted_ok_eq e l sk rf rc a1 off1 t1 hAct h1 hB1 hT1
  have e2 := sendPaymentEncrypted_ok_eq
      { e with total_fund_regulated := e.total_fund_regulated + a1 }
      { sender := l.sender - (a1 - (a1 * 6 / 1000 + a1 * 14 / 1000))
                    - a1 * 14 / 1000 - a1 * 6 / 1000,
        recipient := l.recipient + (a1 - (a1 * 6 / 1000 + a1 * 14 / 1000)),
        treasury := l.treasury + a1 * 14 / 1000,
        referral := l.referral + a1 * 6 / 1000 }
      sk rf rc a2 off2 t2 hAct h2 (by dsimp only; omega) (by dsimp only; omega)
  exact ⟨_, _, _, _, e1, e2⟩

theorem send_twice_without_callback_succeeds_witness :
    ∃ r1 q1 r2 q2,
      sendPaymentEncrypted demoEscrow demoLamports 3 4 5 1000 1 0 = .ok (r1, q1) ∧
      sendPaymentEncrypted r1.escrow r1.lamports 3 4 5 1000 2 0 = .ok (r2, q2) :=
  send_twice_without_callback_succeeds demoEscrow demoLamports 3 4 5 1000 1000
    1 2 0 0 (by decide) (by decide) (by decide) (by decide) (by decide)

/-- C2 counterexample: with request 1 issued and still pending (no callback
delivered), a second send_payment_encrypted succeeds and issues request 2,
rather than failing with a RequestAlreadyPending error as the claim
states. -/
theorem second_request_while_pending_succeeds :
    traceAfterPay.map ProtoState.pending = .ok [1] ∧
    traceSecondRequest.map ProtoState.pending = .ok [1, 2] :=
  ⟨rfl, rfl⟩

/-- C3 (amended): delivering an Aborted terminal result makes
process_payment_callback fail with AbortedComputation, and the transaction
revert leaves the escrow entry entirely unchanged - encrypted_stats and
nonce in particular. A subsequent send_payment_encrypted for the same
entry succeeds whenever its own preconditions hold, but not because
anything was cleared: EscrowAccount has no pending_request_id field, and
no pending state gates new requests in the first place. -/
theorem aborted_callback_state_unchanged_then_new_request
    (e : EscrowAccount) (l : Lamports) (sk rf rc a off : Nat) (now : Int)
    (hAct : e.active = true) (hMul : a * 14 < u64Lim) (hBal : a ≤ l.sender)
    (hTot : e.total_fund_regulated + a < u64Lim) :
    processPaymentCallback e .aborted = .error .abortedComputation ∧
    ∃ r q, sendPaymentEncrypted e l sk rf rc a off now = .ok (r, q) :=
  ⟨rfl, ⟨_, _, sendPaymentEncrypted_ok_eq e l sk rf rc a off now hAct hMul hBal hTot⟩⟩

theorem aborted_callback_state_unchanged_then_new_request_witness :
    processPaymentCallback demoEscrow .aborted = .error .abortedComputation ∧
    ∃ r q, sendPaymentEncrypted demoEscrow demoLamports 3 4 5 1000 2 0 = .ok (r, q) :=
  aborted_callback_state_unchanged_then_new_request demoEscrow demoLamports
    3 4 5 1000 2 0 (by decide) (by decide) (by decide) (by decide)

/-- C3 counterexample: with request 1 in flight, delivering the Aborted
terminal result does not perform any clearing transition: the callback
itself fails with AbortedComputation (its transaction reverts, so nothing
on the entry - and no pending marker - changes); there is also no
pending_request_id field on the account that a delivery could clear. -/
theorem aborted_delivery_error_not_clearing :
    traceAfterPay.map ProtoState.pending = .ok [1] ∧
    traceAbortedDelivery = .error .abortedComputation :=
  ⟨rfl, rfl⟩

/-- C8: apply_transfer (send_payment; send_payment_encrypted shares the
guard) requires the entry active, failing with EscrowPaused (the spec's
EntryInactive) otherwise; it never succeeds when running_total + gross
overflows u64 (the failure is raised as InvalidArgument, the spec's
Overflow); a success moves the gross amount out of the sender and adds
exactly the gross amount to total_fund_regulated in the same transaction,
while every failure - a failing component transfer included - reverts the
transaction with no state change (error results carry no state at all);
consequently total_fund_regulated is non-decreasing under every state
transition of the program. -/
theorem apply_transfer_guards_atomic_monotone (e : EscrowAccount)
    (l : Lamports) (sk rf rc a off : Nat) (now : Int) :
    (e.active = false →
       sendPayment e l sk rf rc a now = .error .escrowPaused ∧
       sendPaymentEncrypted e l sk rf rc a off now = .error .escrowPaused) ∧
    (u64Lim ≤ e.total_fund_regulated + a →
       ∀ r, sendPayment e l sk rf rc a now ≠ .ok r) ∧
    (∀ r, sendPayment e l sk rf rc a now = .ok r →
       r.escrow.total_fund_regulated = e.total_fund_regulated + a ∧
       r.lamports.sender + a = l.sender) ∧
    (∀ e1 e2 : EscrowAccount, EscrowStep e1 e2 →
       e1.total_fund_regulated ≤ e2.total_fund_regulated) := by
  refine ⟨?_, ?_, ?_, escrowStep_total_mono⟩
  · intro hAct
    constructor
    · unfold sendPayment
      rw [if_pos hAct]
    · unfold sendPaymentEncrypted
      rw [if_pos hAct]
  · intro hOv r hok
    rw [sendPayment_as_token] at hok
    have hs := sendPaymentToken_ok_shape e l sk rf rc a 0 now r hok
    omega
  · intro r hok
    rw [sendPayment_as_token] at hok
    have hs := sendPaymentToken_ok_shape e l sk rf rc a 0 now r hok
    exact ⟨hs.1, hs.2.1⟩

theorem apply_transfer_guards_atomic_monotone_witness :
    sendPayment demoPausedEscrow demoLamports 3 4 5 1000 0 = .error .escrowPaused ∧
    sendPayment demoFullEscrow demoLamports 3 4 5 1000 0 ≠ .ok demoPayResult ∧
    (demoPayResult.escrow.total_fund_regulated
        = demoEscrow.total_fund_regulated + 1000 ∧
     demoPayResult.lamports.sender + 1000 = demoLamports.sender) :=
  ⟨((apply_transfer_guards_atomic_monotone demoPausedEscrow demoLamports
        3 4 5 1000 7 0).1 rfl).1,
   (apply_transfer_guards_atomic_monotone demoFullEscrow demoLamports
        3 4 5 1000 7 0).2.1 (by decide) demoPayResult,
   (apply_transfer_guards_atomic_monotone demoEscrow demoLamports
        3 4 5 1000 7 0).2.2.1 demoPayResult rfl⟩

/-- C5: the completed flag of a transfer record transitions false to true
exactly once: execute_proxy_transfer on an already-completed record fails
with TransferAlreadyCompleted (the transaction revert leaves the record
unchanged), a successful execution starts from an uncompleted record and
sets completed := true, and no operation of the program mutates a
completed record except its per_status field (the delegation-state
transitions): every step from a completed record keeps it completed and
changes at most per_status. -/
theorem transfer_completed_exactly_once :
    (∀ (pt : ProxyTransfer) (b : TokenBalances) (ps sk n : Nat),
       pt.is_completed = true →
       executeProxyTransfer pt b ps sk n = .error .transferAlreadyCompleted) ∧
    (∀ (pt : ProxyTransfer) (b : TokenBalances) (ps sk n : Nat)
       (pt' : ProxyTransfer) (b' : TokenBalances),
       executeProxyTransfer pt b ps sk n = .ok (pt', b') →
       pt.is_completed = false ∧ pt'.is_completed = true) ∧
    (∀ pt pt' : ProxyTransfer, PtStep pt pt' → pt.is_completed = true →
       pt'.is_completed = true ∧ pt' = { pt with per_status := pt'.per_status }) := by
  refine ⟨executeProxyTransfer_completed_error, ?_, ?_⟩
  · intro pt b ps sk n pt' b' h
    obtain ⟨hc, hshape⟩ := executeProxyTransfer_ok_shape pt b ps sk n pt' b' h
    subst hshape
    exact ⟨hc, rfl⟩
  · intro pt pt' hstep hcomp
    cases hstep with
    | exec b ps sk n pt' b' h =>
      obtain ⟨hc, _⟩ := executeProxyTransfer_ok_shape pt b ps sk n pt' b' h
      rw [hcomp] at hc
      exact Bool.noConfusion hc
    | integrate sk n pt' h =>
      have := magicblockPerIntegration_isOk_false pt sk n
      rw [h] at this
      exact Bool.noConfusion this
    | delegate pt' h =>
      unfold delegateEscrows at h
      split at h
      · injection h with h
        subst h
        exact ⟨hcomp, rfl⟩
      · exact Option.noConfusion h
    | commit pt' h =>
      unfold commitPerChanges at h
      split at h
      · injection h with h
        subst h
        exact ⟨hcomp, rfl⟩
      · exact Option.noConfusion h
    | undelegate pt' h =>
      unfold undelegateEscrowsNew at h
      split at h
      · injection h with h
        subst h
        exact ⟨hcomp, rfl⟩
      · exact Option.noConfusion h

theorem transfer_completed_exactly_once_witness :
    executeProxyTransfer demoCommittedPt demoTokens 5 5 9
      = .error .transferAlreadyCompleted :=
  transfer_completed_exactly_once.1 demoCommittedPt demoTokens 5 5 9 rfl

/-- C6 (code bug): the old program's undelegate_escrows handler can never
succeed, because it requires is_completed to be false (line 86,
TransferAlreadyCompleted) and then is_completed to be true (line 95,
TransferNotExecuted): the two require checks are contradictory. In
particular, on the claim's intended success input - a completed record in
the Committed state with matching sender and nonce - it fails with
TransferAlreadyCompleted, and on a not-yet-completed record in a
non-Committed state it fails with TransferNotExecuted, never reaching the
PerNotCommitted check (a variant the old error enum does not even
declare). -/
theorem old_undelegate_never_succeeds :
    (∀ (pt : OldProxyTransfer) (sk n : Nat),
       exceptIsOk (undelegateEscrows pt sk n) = false) ∧
    undelegateEscrows demoOldCommittedPt 5 9 = .error .transferAlreadyCompleted ∧
    undelegateEscrows demoOldFreshPt 5 9 = .error .transferNotExecuted :=
  ⟨undelegateEscrows_isOk_false, rfl, rfl⟩

/-- C7 (code bug): the magicblock_per_integration handler can never
succeed, because it requires is_completed to be false (line 53,
TransferAlreadyCompleted) and then is_completed to be true (line 62,
TransferNotExecuted); the write of the terminal Integrated state at line
65 is unreachable, and the handler never checks per_status = Committed at
all. On a completed record in the Committed state with matching sender and
nonce - where the claim says integrate succeeds - it fails with
TransferAlreadyCompleted; on an uncompleted record with matching sender
and nonce it does fail with TransferNotExecuted, the one part of the claim
the code realizes. -/
theorem per_integration_never_succeeds :
    (∀ (pt : ProxyTransfer) (sk n : Nat),
       exceptIsOk (magicblockPerIntegration pt sk n) = false) ∧
    magicblockPerIntegration demoCommittedPt 5 9
      = .error .transferAlreadyCompleted ∧
    magicblockPerIntegration demoFreshPt 5 9 = .error .transferNotExecuted :=
  ⟨magicblockPerIntegration_isOk_false, rfl, rfl⟩

/-- C10: a successful execute_proxy_transfer writes per_status :=
Delegated together with is_completed := true and the collected tax in the
same mutation block; records are created uncompleted in state None
(initialize modelled from the spec, its handler file being absent from
src), every reachable step preserves the invariant that a completed record
is never in state None, and on any record satisfying that invariant the
(spec-modelled) delegate operation from state None is never applicable -
no separate delegation from None ever happens. -/
theorem execute_sets_delegated_and_invariant :
    (∀ (pt : ProxyTransfer) (b : TokenBalances) (ps sk n : Nat)
       (pt' : ProxyTransfer) (b' : TokenBalances),
       executeProxyTransfer pt b ps sk n = .ok (pt', b') →
       pt'.per_status = PerStatus.delegated ∧ pt'.is_completed = true ∧
       pt'.tax_collected = pt.amount * 1000 / 10000) ∧
    (∀ (s rc a : Nat) (tm : Option Nat) (n : Nat) (rf : Option Nat) (bp : Nat),
       (initProxyTransfer s rc a tm n rf bp).is_completed = false ∧
       (initProxyTransfer s rc a tm n rf bp).per_status = PerStatus.none) ∧
    (∀ pt pt' : ProxyTransfer, PtStep pt pt' →
       (pt.is_completed = true → pt.per_status ≠ PerStatus.none) →
       (pt'.is_completed = true → pt'.per_status ≠ PerStatus.none)) ∧
    (∀ pt : ProxyTransfer,
       (pt.is_completed = true → pt.per_status ≠ PerStatus.none) →
       ∀ pt', delegateEscrows pt ≠ some pt') := by
  refine ⟨?_, ?_, ?_, ?_⟩
  · intro pt b ps sk n pt' b' h
    obtain ⟨hc, hshape⟩ := executeProxyTransfer_ok_shape pt b ps sk n pt' b' h
    subst hshape
    exact ⟨rfl, rfl, rfl⟩
  · intro s rc a tm n rf bp
    exact ⟨rfl, rfl⟩
  · intro pt pt' hstep hInv
    cases hstep with
    | exec b ps sk n pt' b' h =>
      obtain ⟨hc, hshape⟩ := executeProxyTransfer_ok_shape pt b ps sk n pt' b' h
      subst hshape
      intro _
      exact PerStatus.noConfusion
    | integrate sk n pt' h =>
      have := magicblockPerIntegration_isOk_false pt sk n
      rw [h] at this
      exact Bool.noConfusion this
    | delegate pt' h =>
      unfold delegateEscrows at h
      split at h
      · injection h with h
        subst h
        intro _
        exact PerStatus.noConfusion
      · exact Option.noConfusion h
    | commit pt' h =>
      unfold commitPerChanges at h
      split at h
      · injection h with h
        subst h
        intro _
        exact PerStatus.noConfusion
      · exact Option.noConfusion h
    | undelegate pt' h =>
      unfold undelegateEscrowsNew at h
      split at h
      · injection h with h
        subst h
        intro _
        exact PerStatus.noConfusion
      · exact Option.noConfusion h
  · intro pt hInv pt' h
    unfold delegateEscrows at h
    split at h
    next hpre => exact hInv hpre.1 hpre.2
    · exact Option.noConfusion h

theorem execute_sets_delegated_and_invariant_witness :
    demoExecutedPt.per_status = PerStatus.delegated ∧
    demoExecutedPt.is_completed = true ∧
    demoExecutedPt.tax_collected = demoFreshPt.amount * 1000 / 10000 :=
  execute_sets_delegated_and_invariant.1 demoFreshPt demoTokens 5 5 9
    demoExecutedPt demoExecutedTokens rfl
